import Mathlib

/-!
Shallow embedding of the replify-backend conversation core.

The embedding covers, faithfully to the Python source:
  * `ai_engine.py` — escalation triggers, `needs_human_escalation`, and
    `generate_reply` (the external Anthropic call is abstracted as a
    function from the message payload to `Option String`; `none` models a
    raised exception / malformed response, `some t` a returned text);
  * `services/conversation_service.py` — `get_or_create_conversation`,
    `save_message`, `get_conversation_history_for_claude`, `flag_for_human`;
  * `services/business_service.py` — `get_business_by_phone_id`;
  * `main.py` — the text/media branches of `receive_webhook`, and the
    `agent_reply`, `takeover_conversation`, `resolve_conversation` handlers.

The relational store is a record of lists of rows; SQL UPDATE-where is a
`List.map` that rewrites matching rows, SELECT-where a `List.filter`/`find?`.
UUIDs are `Nat` and timestamps are `Nat`, supplied by the caller at each
point where the Python code calls `uuid.uuid4()` / `datetime.now()`.
Python's stable `sorted` is modelled by a stable insertion sort, and
`str.strip` / `str.lower` / substring containment by character-list
functions below (ASCII / Latin-1 whitespace, ASCII case folding — all
trigger phrases and sentinels in the source are ASCII).
-/

namespace Replify

/-- Characters treated as whitespace by Python `str.strip()` (ASCII and
Latin-1 range; the wider Unicode space classes do not occur in the source's
fixed strings). -/
def pyIsSpace (c : Char) : Bool :=
  ([9, 10, 11, 12, 13, 28, 29, 30, 31, 32, 133, 160] : List Nat).contains c.toNat

/-- Python `str.strip()`: drop leading and trailing whitespace. -/
def pyStrip (s : String) : String :=
  ⟨((s.data.dropWhile pyIsSpace).reverse.dropWhile pyIsSpace).reverse⟩

/-- Python `str.lower()` (ASCII case folding, character-wise). -/
def pyLower (s : String) : String :=
  ⟨s.data.map Char.toLower⟩

/-- Containment of `needle` as a contiguous run of `haystack` (Python's
`needle in haystack` on strings), over character lists. -/
def listContainsSub (haystack needle : List Char) : Bool :=
  match haystack with
  | [] => needle.isEmpty
  | _ :: t => needle.isPrefixOf haystack || listContainsSub t needle

/-- Python `needle in haystack` for strings. -/
def strContainsSub (haystack needle : String) : Bool :=
  listContainsSub haystack.data needle.data

/-! ### ai_engine.py -/

/-- `ESCALATION_TRIGGERS` from `ai_engine.py`. -/
def ESCALATION_TRIGGERS : List String :=
  [ "speak to a person"
  , "speak to someone"
  , "human"
  , "agent"
  , "manager"
  , "complaint"
  , "refund"
  , "not working"
  , "problem"
  , "urgent"
  , "asap"
  , "emergency" ]

/-- `HANDOFF_MESSAGE` from `ai_engine.py`. -/
def HANDOFF_MESSAGE : String :=
  "I understand — let me connect you with one of our team members who will be able to assist you further. Please hold on while we get someone for you 🙏"

/-- Fixed apology returned by `generate_reply` when the Anthropic call raises. -/
def APOLOGY_MESSAGE : String :=
  "Sorry, I'm having a little trouble right now. Please try again in a moment or type 'agent' to speak with someone."

/-- `FALLBACK_MEDIA_MESSAGE` from `main.py`. -/
def FALLBACK_MEDIA_MESSAGE : String :=
  "Hi! I can only process text messages right now. Please describe what you need and I'll be happy to help 😊"

/-- `needs_human_escalation(message)`: True when the lowered message contains
any trigger phrase as a substring. -/
def needs_human_escalation (message : String) : Bool :=
  ESCALATION_TRIGGERS.any (fun trigger => strContainsSub (pyLower message) trigger)

/-- Outcome of `generate_reply`: the `(reply_text, needs_human)` pair the
Python function returns, plus a flag recording whether the code path that
invokes the external generation collaborator was reached. -/
structure ReplyOutcome where
  reply : String
  needs_human : Bool
  api_called : Bool
deriving DecidableEq, Repr

/-- Payload of `(role, content)` turns built by `generate_reply` before the
API call: prior turns restricted to roles `user`/`assistant`, then the
current customer turn. -/
def build_api_messages (customer_message : String) (history : List (String × String)) :
    List (String × String) :=
  (history.filter (fun h => h.1 == "user" || h.1 == "assistant")) ++
    [("user", customer_message)]

/-- `generate_reply` from `ai_engine.py`. The collaborator is `api`, mapping
the assembled message payload to `some text` (a response whose first block's
text is `text`) or `none` (any raised exception). The system prompt, which
only feeds the collaborator, is abstracted into `api` itself. -/
def generate_reply (customer_message : String) (history : List (String × String))
    (api : List (String × String) → Option String) : ReplyOutcome :=
  if needs_human_escalation customer_message then
    { reply := HANDOFF_MESSAGE, needs_human := true, api_called := false }
  else
    match api (build_api_messages customer_message history) with
    | none => { reply := APOLOGY_MESSAGE, needs_human := false, api_called := true }
    | some t =>
      let reply_text := pyStrip t
      if strContainsSub reply_text "NEEDS_HUMAN" then
        { reply := HANDOFF_MESSAGE, needs_human := true, api_called := true }
      else
        { reply := reply_text, needs_human := false, api_called := true }

/-! ### database/models.py -/

/-- Row of the `businesses` table (fields the core reads). -/
structure Business where
  id : Nat
  supabase_user_id : String
  phone_number_id : String
  ai_enabled : Bool
deriving DecidableEq, Repr

/-- Row of the `conversations` table. -/
structure Conversation where
  id : Nat
  business_id : Nat
  customer_number : String
  status : String
  ai_handling : Bool
  last_message_at : Option Nat
  created_at : Nat
deriving DecidableEq, Repr

/-- Row of the `messages` table. -/
structure Message where
  id : Nat
  conversation_id : Nat
  role : String
  content : String
  whatsapp_message_id : Option String
  needs_human : Bool
  created_at : Nat
deriving DecidableEq, Repr

/-- The relational store: one list of rows per table. -/
structure Store where
  businesses : List Business
  conversations : List Conversation
  messages : List Message
deriving DecidableEq, Repr

/-- Messages belonging to a conversation (the eagerly loaded
`conversation.messages` collection). -/
def messagesOf (db : Store) (cid : Nat) : List Message :=
  db.messages.filter (fun m => m.conversation_id == cid)

/-! ### services/business_service.py -/

/-- `get_business_by_phone_id`: prefer a non-demo business with the phone
number id, falling back to any business with it. -/
def get_business_by_phone_id (db : Store) (pid : String) : Option Business :=
  match db.businesses.find?
      (fun b => b.phone_number_id == pid && b.supabase_user_id != "demo-seed") with
  | some b => some b
  | none => db.businesses.find? (fun b => b.phone_number_id == pid)

/-! ### services/conversation_service.py -/

/-- Conversations matching the `get_or_create_conversation` WHERE clause:
same business, same customer number, status not resolved. -/
def activeFor (db : Store) (business_id : Nat) (customer_number : String) :
    List Conversation :=
  db.conversations.filter
    (fun c => c.business_id == business_id
      && c.customer_number == customer_number
      && c.status != "resolved")

/-- Later-created of two conversation rows (keeping the first on ties). -/
def pickLater (best x : Conversation) : Conversation :=
  if best.created_at < x.created_at then x else best

/-- `ORDER BY created_at DESC LIMIT 1` over a candidate list: a row of
maximal `created_at` (the earliest listed one on ties, matching an
arbitrary-but-fixed store ordering). -/
def selectMostRecent : List Conversation → Option Conversation
  | [] => none
  | c :: cs => some (cs.foldl pickLater c)

/-- `get_or_create_conversation(db, business_id, customer_number)`: return
the most recent non-resolved conversation for the pair, or insert and return
a fresh `open` conversation with `ai_handling=True`, `last_message_at=now`. -/
def get_or_create_conversation (db : Store) (business_id : Nat)
    (customer_number : String) (now freshId : Nat) : Conversation × Store :=
  match selectMostRecent (activeFor db business_id customer_number) with
  | some c => (c, db)
  | none =>
    let c : Conversation :=
      { id := freshId
      , business_id := business_id
      , customer_number := customer_number
      , status := "open"
      , ai_handling := true
      , last_message_at := some now
      , created_at := now }
    (c, { db with conversations := db.conversations ++ [c] })

/-- `save_message(db, conversation_id, role, content, whatsapp_message_id,
needs_human)`: insert the message and, in the same committed unit, rewrite
the parent conversation row: always `last_message_at=now`; additionally
`status=needs_human, ai_handling=False` when `needs_human` is set. The
insert and the conversation update are one atomic transition of the store. -/
def save_message (db : Store) (conversation_id : Nat) (role content : String)
    (whatsapp_message_id : Option String) (needs_human : Bool)
    (now freshId : Nat) : Message × Store :=
  let m : Message :=
    { id := freshId
    , conversation_id := conversation_id
    , role := role
    , content := content
    , whatsapp_message_id := whatsapp_message_id
    , needs_human := needs_human
    , created_at := now }
  let upd : Conversation → Conversation := fun c =>
    if c.id == conversation_id then
      if needs_human then
        { c with last_message_at := some now, status := "needs_human", ai_handling := false }
      else
        { c with last_message_at := some now }
    else c
  (m, { db with messages := db.messages ++ [m]
              , conversations := db.conversations.map upd })

/-- Stable insertion of a message into a list ascending by `created_at`
(placed before the first element of strictly later-or-equal timestamp). -/
def insertByCreated (m : Message) : List Message → List Message
  | [] => [m]
  | x :: xs =>
    if m.created_at ≤ x.created_at then m :: x :: xs else x :: insertByCreated m xs

/-- Python's stable `sorted(messages, key=created_at)`. -/
def sortByCreated (l : List Message) : List Message :=
  l.foldr insertByCreated []

/-- Predicate selecting the roles usable as model context. -/
def isModelRole (m : Message) : Bool :=
  m.role == "user" || m.role == "assistant"

/-- `get_conversation_history_for_claude(conversation)`: messages sorted by
`created_at`, restricted to roles `user`/`assistant`, as (role, content). -/
def get_conversation_history_for_claude (msgs : List Message) :
    List (String × String) :=
  ((sortByCreated msgs).filter isModelRole).map (fun m => (m.role, m.content))

/-- `flag_for_human(db, conversation_id)`: UPDATE the conversation row to
`status=needs_human, ai_handling=False` (no existence check; zero rows may
match). -/
def flag_for_human (db : Store) (conversation_id : Nat) : Store :=
  { db with conversations := db.conversations.map (fun c =>
      if c.id == conversation_id then
        { c with status := "needs_human", ai_handling := false }
      else c) }

/-! ### main.py — dashboard handlers -/

/-- SELECT a conversation by id. -/
def findConv (db : Store) (cid : Nat) : Option Conversation :=
  db.conversations.find? (fun c => c.id == cid)

/-- Distinguished error outcome of an HTTP handler (HTTPException 404). -/
inductive ApiError where
  | notFound
deriving DecidableEq, Repr

/-- `POST /api/conversations/:id/takeover`: 404 when the conversation does
not exist, otherwise `flag_for_human`. -/
def takeover_conversation (db : Store) (cid : Nat) : Except ApiError Store :=
  match findConv db cid with
  | none => .error .notFound
  | some _ => .ok (flag_for_human db cid)

/-- `POST /api/conversations/:id/resolve`: 404 when the conversation does
not exist, otherwise UPDATE to `status=resolved, ai_handling=False`. -/
def resolve_conversation (db : Store) (cid : Nat) : Except ApiError Store :=
  match findConv db cid with
  | none => .error .notFound
  | some _ =>
    .ok { db with conversations := db.conversations.map (fun c =>
            if c.id == cid then
              { c with status := "resolved", ai_handling := false }
            else c) }

/-- `POST /api/conversations/:id/reply`: 404 when the conversation does not
exist, otherwise persist the agent's text with role `human_agent`
(`needs_human` left at its default False) and send it to the customer.
Returns the new store and the outbound `(to, text)` deliveries. -/
def agent_reply (db : Store) (cid : Nat) (text : String) (now freshId : Nat) :
    Except ApiError (Store × List (String × String)) :=
  match findConv db cid with
  | none => .error .notFound
  | some conversation =>
    let db1 := (save_message db conversation.id "human_agent" text none false now freshId).2
    .ok (db1, [(conversation.customer_number, text)])

/-! ### main.py — webhook -/

/-- The inbound WhatsApp message after JSON extraction in `receive_webhook`:
`msg.get("id")`, `msg.get("type")`, `msg.get("from")`, and the text body
`msg.get("text", \x7b\x7d).get("body", "")`. -/
structure WebhookMsg where
  msg_id : String
  msg_type : String
  from_number : String
  text_body : String
deriving DecidableEq, Repr

/-- The media types answered with `FALLBACK_MEDIA_MESSAGE`. -/
def MEDIA_TYPES : List String :=
  ["image", "audio", "video", "document", "sticker"]

/-- Text/media processing of `POST /webhook` after JSON extraction, for one
inbound message. `api` is the generation collaborator; `now0/now1/now2` are
the clock readings at conversation creation, user-message save and
assistant-message save; `fConv/fMsg1/fMsg2` the fresh ids drawn there.
Returns the new store and the outbound `(to, text)` deliveries
(`mark_as_read` is a channel-side receipt, not a reply, and is external). -/
def receive_webhook (db : Store) (phone_number_id : String) (msg : WebhookMsg)
    (api : List (String × String) → Option String)
    (now0 now1 now2 fConv fMsg1 fMsg2 : Nat) :
    Store × List (String × String) :=
  match get_business_by_phone_id db phone_number_id with
  | none => (db, [])
  | some business =>
    if msg.msg_type == "text" then
      let customer_text := pyStrip msg.text_body
      if customer_text == "" then (db, [])
      else
        let gc := get_or_create_conversation db business.id msg.from_number now0 fConv
        let conversation := gc.1
        let db1 := gc.2
        let db2 := (save_message db1 conversation.id "user" customer_text
          (some msg.msg_id) false now1 fMsg1).2
        if business.ai_enabled && conversation.ai_handling then
          let history := get_conversation_history_for_claude (messagesOf db1 conversation.id)
          let r := generate_reply customer_text history api
          let db3 := (save_message db2 conversation.id "assistant" r.reply
            none r.needs_human now2 fMsg2).2
          let db4 := if r.needs_human then flag_for_human db3 conversation.id else db3
          (db4, [(msg.from_number, r.reply)])
        else
          (db2, [])
    else if MEDIA_TYPES.contains msg.msg_type then
      (db, [(msg.from_number, FALLBACK_MEDIA_MESSAGE)])
    else
      (db, [])

/-! ### Concrete fixtures used by witnesses and counterexamples -/

/-- A business with AI enabled. -/
def exBusiness : Business :=
  { id := 1, supabase_user_id := "u1", phone_number_id := "pn1", ai_enabled := true }

/-- An escalated conversation: `needs_human`, AI handling off. -/
def exConvEscalated : Conversation :=
  { id := 10, business_id := 1, customer_number := "c1", status := "needs_human"
  , ai_handling := false, last_message_at := some 5, created_at := 1 }

/-- An open conversation with AI handling on. -/
def exConvOpen : Conversation :=
  { id := 10, business_id := 1, customer_number := "c1", status := "open"
  , ai_handling := true, last_message_at := some 5, created_at := 1 }

/-- Store holding the escalated conversation. -/
def exStoreEscalated : Store :=
  { businesses := [exBusiness], conversations := [exConvEscalated], messages := [] }

/-- Store holding the open conversation. -/
def exStoreOpen : Store :=
  { businesses := [exBusiness], conversations := [exConvOpen], messages := [] }

/-- An inbound text message reading "hi". -/
def exMsgHi : WebhookMsg :=
  { msg_id := "wa1", msg_type := "text", from_number := "c1", text_body := "hi" }

/-- An inbound text message whose body is whitespace only. -/
def exMsgBlank : WebhookMsg :=
  { msg_id := "wa2", msg_type := "text", from_number := "c1", text_body := "   " }

/-- The store after resolving the open fixture conversation (the `.ok`
payload of `resolve_conversation exStoreOpen 10`). -/
def exStoreResolved : Store :=
  { businesses := [exBusiness]
  , conversations := [{ exConvOpen with status := "resolved", ai_handling := false }]
  , messages := [] }

/-- Three interleaved user/assistant/human_agent messages with distinct
timestamps, listed out of order. -/
def exHistMsgs : List Message :=
  [ { id := 1, conversation_id := 10, role := "user", content := "a"
    , whatsapp_message_id := none, needs_human := false, created_at := 3 }
  , { id := 2, conversation_id := 10, role := "human_agent", content := "b"
    , whatsapp_message_id := none, needs_human := false, created_at := 2 }
  , { id := 3, conversation_id := 10, role := "assistant", content := "c"
    , whatsapp_message_id := none, needs_human := false, created_at := 1 } ]

/-! ## Theorems -/

/-- C2: for every input string containing a fixed trigger phrase
case-insensitively as a substring, `generate_reply` returns the fixed
hand-off message with `needs_human=true` and the external generation
collaborator is never invoked (`api_called=false`); and for strings
containing no trigger phrase, `needs_human_escalation` returns `false`. -/
theorem C2_trigger_handoff (s : String) (history : List (String × String))
    (api : List (String × String) → Option String) :
    ((∃ t ∈ ESCALATION_TRIGGERS, strContainsSub (pyLower s) t = true) →
      generate_reply s history api =
        { reply := HANDOFF_MESSAGE, needs_human := true, api_called := false }) ∧
    ((∀ t ∈ ESCALATION_TRIGGERS, strContainsSub (pyLower s) t = false) →
      needs_human_escalation s = false) := by
  constructor
  · intro h
    have hesc : needs_human_escalation s = true := by
      unfold needs_human_escalation
      rw [List.any_eq_true]
      obtain ⟨t, ht, hsub⟩ := h
      exact ⟨t, ht, hsub⟩
    simp [generate_reply, hesc]
  · intro h
    unfold needs_human_escalation
    rw [List.any_eq_false]
    intro t ht
    simp [h t ht]

/-- C2 witness: "I want a REFUND" contains the trigger "refund"
case-insensitively, so the reply is the hand-off without an API call;
"hello" contains no trigger, so the detector returns false. -/
theorem C2_trigger_handoff_witness :
    generate_reply "I want a REFUND" [] (fun _ => none) =
      { reply := HANDOFF_MESSAGE, needs_human := true, api_called := false } ∧
    needs_human_escalation "hello" = false :=
  ⟨(C2_trigger_handoff "I want a REFUND" [] (fun _ => none)).1 (by decide),
   (C2_trigger_handoff "hello" [] (fun _ => none)).2 (by decide)⟩

/-- C5: for a message that does not trip the escalation detector, when the
collaborator returns text whose stripped form contains the sentinel
`NEEDS_HUMAN`, `generate_reply` returns the fixed hand-off message with
`needs_human=true` — the generated text is discarded, never returned. -/
theorem C5_sentinel_handoff (s t : String) (history : List (String × String))
    (api : List (String × String) → Option String)
    (hesc : needs_human_escalation s = false)
    (hapi : api (build_api_messages s history) = some t)
    (hsent : strContainsSub (pyStrip t) "NEEDS_HUMAN" = true) :
    generate_reply s history api =
      { reply := HANDOFF_MESSAGE, needs_human := true, api_called := true } := by
  simp [generate_reply, hesc, hapi, hsent]

/-- C5 witness: at message "hello" with collaborator text " NEEDS_HUMAN ". -/
theorem C5_sentinel_handoff_witness :
    generate_reply "hello" [] (fun _ => some " NEEDS_HUMAN ") =
      { reply := HANDOFF_MESSAGE, needs_human := true, api_called := true } :=
  C5_sentinel_handoff "hello" " NEEDS_HUMAN " [] (fun _ => some " NEEDS_HUMAN ")
    (by decide) rfl (by decide)

/-- C6: for a message that does not trip the escalation detector, when the
collaborator call fails (modelled as `none`: a raised exception, timeout or
malformed response), `generate_reply` returns the fixed apology message with
`needs_human=false` — the failure is recovered locally, not escalated. -/
theorem C6_failure_apology (s : String) (history : List (String × String))
    (api : List (String × String) → Option String)
    (hesc : needs_human_escalation s = false)
    (hapi : api (build_api_messages s history) = none) :
    generate_reply s history api =
      { reply := APOLOGY_MESSAGE, needs_human := false, api_called := true } := by
  simp [generate_reply, hesc, hapi]

/-- C6 witness: at message "hello" with a failing collaborator. -/
theorem C6_failure_apology_witness :
    generate_reply "hello" [] (fun _ => none) =
      { reply := APOLOGY_MESSAGE, needs_human := false, api_called := true } :=
  C6_failure_apology "hello" [] (fun _ => none) (by decide) rfl

/-- C9: each state-machine handler (takeover, resolve, agent reply) applied
to a conversation id with no matching row returns the distinguished
not-found error instead of silently succeeding. -/
theorem C9_not_found (db : Store) (cid : Nat) (text : String) (now fid : Nat)
    (h : findConv db cid = none) :
    takeover_conversation db cid = .error .notFound ∧
    resolve_conversation db cid = .error .notFound ∧
    agent_reply db cid text now fid = .error .notFound := by
  refine ⟨?_, ?_, ?_⟩ <;> simp [takeover_conversation, resolve_conversation, agent_reply, h]

/-- C9 witness: on an empty store every handler reports not-found for id 5. -/
theorem C9_not_found_witness :
    takeover_conversation { businesses := [], conversations := [], messages := [] } 5 =
      .error .notFound ∧
    resolve_conversation { businesses := [], conversations := [], messages := [] } 5 =
      .error .notFound ∧
    agent_reply { businesses := [], conversations := [], messages := [] } 5 "x" 7 8 =
      .error .notFound :=
  C9_not_found { businesses := [], conversations := [], messages := [] } 5 "x" 7 8 rfl

/-- C10: an inbound text message whose body strips to the empty string is
dropped before the conversation store is touched: the handler returns with
the store unchanged and sends nothing. -/
theorem C10_blank_text_noop (db : Store) (pid : String) (msg : WebhookMsg)
    (api : List (String × String) → Option String)
    (now0 now1 now2 f0 f1 f2 : Nat)
    (htype : msg.msg_type = "text")
    (hblank : pyStrip msg.text_body = "") :
    receive_webhook db pid msg api now0 now1 now2 f0 f1 f2 = (db, []) := by
  cases hb : get_business_by_phone_id db pid <;>
    simp [receive_webhook, hb, htype, hblank]

/-- C10 witness: a whitespace-only body leaves the store untouched. -/
theorem C10_blank_text_noop_witness :
    receive_webhook exStoreOpen "pn1" exMsgBlank (fun _ => some "x") 100 101 102 50 60 61 =
      (exStoreOpen, []) :=
  C10_blank_text_noop exStoreOpen "pn1" exMsgBlank (fun _ => some "x") 100 101 102 50 60 61
    rfl (by decide)

/-- C1: `save_message` with `needs_human=true` performs, as one atomic store
transition (a single returned store value — no intermediate state exists in
which only one of the two effects is visible), both the message insert and
the parent-conversation update: the inserted message carries the given
conversation id, role, content and insertion time, some conversation row
with the target id remains, and every conversation row with the target id
ends with `status="needs_human"`, `ai_handling=false` and `last_message_at`
equal to the insertion time, regardless of its prior state. -/
theorem C1_save_message_needs_human (db : Store) (cid : Nat) (role content : String)
    (waId : Option String) (now fid : Nat)
    (hex : ∃ c ∈ db.conversations, c.id = cid) :
    ((save_message db cid role content waId true now fid).1 ∈
        (save_message db cid role content waId true now fid).2.messages ∧
      (save_message db cid role content waId true now fid).1.conversation_id = cid ∧
      (save_message db cid role content waId true now fid).1.role = role ∧
      (save_message db cid role content waId true now fid).1.content = content ∧
      (save_message db cid role content waId true now fid).1.created_at = now) ∧
    (∃ c ∈ (save_message db cid role content waId true now fid).2.conversations,
      c.id = cid) ∧
    (∀ c ∈ (save_message db cid role content waId true now fid).2.conversations,
      c.id = cid →
        c.status = "needs_human" ∧ c.ai_handling = false ∧
          c.last_message_at = some now) := by
  refine ⟨⟨?_, rfl, rfl, rfl, rfl⟩, ?_, ?_⟩
  · simp [save_message]
  · obtain ⟨c, hc, hid⟩ := hex
    refine ⟨if c.id == cid then
        { c with last_message_at := some now, status := "needs_human", ai_handling := false }
      else c, ?_, ?_⟩
    · simp only [save_message]
      exact List.mem_map.mpr ⟨c, hc, rfl⟩
    · simp [hid]
  · intro c hc hid
    simp only [save_message, List.mem_map] at hc
    obtain ⟨a, _, ha⟩ := hc
    subst ha
    by_cases h : a.id = cid
    · simp [h]
    · simp [h] at hid

/-- C1 witness: saving a `needs_human` message into the open-conversation
fixture inserts the message and forces the conversation to
`needs_human`/`ai_handling=false` with the new timestamp. -/
theorem C1_save_message_needs_human_witness :
    (((save_message exStoreOpen 10 "assistant" "r" none true 200 70).1 ∈
        (save_message exStoreOpen 10 "assistant" "r" none true 200 70).2.messages ∧
      (save_message exStoreOpen 10 "assistant" "r" none true 200 70).1.conversation_id = 10 ∧
      (save_message exStoreOpen 10 "assistant" "r" none true 200 70).1.role = "assistant" ∧
      (save_message exStoreOpen 10 "assistant" "r" none true 200 70).1.content = "r" ∧
      (save_message exStoreOpen 10 "assistant" "r" none true 200 70).1.created_at = 200) ∧
    (∃ c ∈ (save_message exStoreOpen 10 "assistant" "r" none true 200 70).2.conversations,
      c.id = 10) ∧
    (∀ c ∈ (save_message exStoreOpen 10 "assistant" "r" none true 200 70).2.conversations,
      c.id = 10 →
        c.status = "needs_human" ∧ c.ai_handling = false ∧
          c.last_message_at = some 200)) :=
  C1_save_message_needs_human exStoreOpen 10 "assistant" "r" none 200 70
    ⟨exConvOpen, by decide, by decide⟩

/-- C8: `save_message` with `needs_human=false` only touches
`last_message_at` on the parent conversation: rows with other ids are kept
verbatim, the target row keeps its prior `status` and `ai_handling` and gets
the new timestamp, and every resulting row agrees with a prior row on id,
status and `ai_handling`; moreover a successful `agent_reply` (which records
the agent's text with role `human_agent` through the same path) likewise
preserves every row's `status` and `ai_handling` — it cannot re-enable AI
handling on an escalated conversation. -/
theorem C8_save_message_frame (db : Store) (cid : Nat) (role content text : String)
    (waId : Option String) (now fid : Nat) :
    (∀ c ∈ db.conversations, c.id ≠ cid →
      c ∈ (save_message db cid role content waId false now fid).2.conversations) ∧
    (∀ c ∈ db.conversations, c.id = cid →
      { c with last_message_at := some now } ∈
        (save_message db cid role content waId false now fid).2.conversations) ∧
    (∀ c ∈ (save_message db cid role content waId false now fid).2.conversations,
      ∃ a ∈ db.conversations,
        c.id = a.id ∧ c.status = a.status ∧ c.ai_handling = a.ai_handling) ∧
    (∀ st, agent_reply db cid text now fid = .ok st →
      ((∃ m ∈ st.1.messages, m.role = "human_agent" ∧ m.content = text) ∧
        ∀ c ∈ st.1.conversations, ∃ a ∈ db.conversations,
          c.id = a.id ∧ c.status = a.status ∧ c.ai_handling = a.ai_handling)) := by
  have frame : ∀ cid2, ∀ c ∈ (save_message db cid2 role content waId false now fid).2.conversations,
      ∃ a ∈ db.conversations,
        c.id = a.id ∧ c.status = a.status ∧ c.ai_handling = a.ai_handling := by
    intro cid2 c hc
    simp only [save_message, List.mem_map] at hc
    obtain ⟨a, ha, hupd⟩ := hc
    refine ⟨a, ha, ?_⟩
    subst hupd
    by_cases h : a.id = cid2 <;> simp [h]
  refine ⟨?_, ?_, frame cid, ?_⟩
  · intro c hc hne
    simp only [save_message]
    refine List.mem_map.mpr ⟨c, hc, ?_⟩
    have : (c.id == cid) = false := by simp [hne]
    rw [this]
    simp
  · intro c hc hid
    simp only [save_message]
    refine List.mem_map.mpr ⟨c, hc, ?_⟩
    simp [hid]
  · intro st hst
    unfold agent_reply at hst
    cases hfind : findConv db cid with
    | none => rw [hfind] at hst; exact absurd hst (by simp)
    | some conv =>
      rw [hfind] at hst
      simp only [Except.ok.injEq] at hst
      subst hst
      constructor
      · refine ⟨(save_message db conv.id "human_agent" text none false now fid).1, ?_, rfl, rfl⟩
        simp [save_message]
      · exact frame conv.id

/-- C8 witness: recording an agent reply on the escalated fixture keeps
`status="needs_human"` and `ai_handling=false` on the conversation while
appending the `human_agent` message. -/
theorem C8_save_message_frame_witness :
    ((∀ c ∈ exStoreEscalated.conversations, c.id ≠ 10 →
      c ∈ (save_message exStoreEscalated 10 "human_agent" "ok" none false 300 80).2.conversations) ∧
    (∀ c ∈ exStoreEscalated.conversations, c.id = 10 →
      { c with last_message_at := some 300 } ∈
        (save_message exStoreEscalated 10 "human_agent" "ok" none false 300 80).2.conversations) ∧
    (∀ c ∈ (save_message exStoreEscalated 10 "human_agent" "ok" none false 300 80).2.conversations,
      ∃ a ∈ exStoreEscalated.conversations,
        c.id = a.id ∧ c.status = a.status ∧ c.ai_handling = a.ai_handling) ∧
    (∀ st, agent_reply exStoreEscalated 10 "ok" 300 80 = .ok st →
      ((∃ m ∈ st.1.messages, m.role = "human_agent" ∧ m.content = "ok") ∧
        ∀ c ∈ st.1.conversations, ∃ a ∈ exStoreEscalated.conversations,
          c.id = a.id ∧ c.status = a.status ∧ c.ai_handling = a.ai_handling))) :=
  C8_save_message_frame exStoreEscalated 10 "human_agent" "ok" "ok" none 300 80

/-- Inserting into a list is a permutation of consing. -/
theorem insertByCreated_perm (m : Message) (l : List Message) :
    (insertByCreated m l).Perm (m :: l) := by
  induction l with
  | nil => exact List.Perm.refl _
  | cons x xs ih =>
    simp only [insertByCreated]
    by_cases h : m.created_at ≤ x.created_at
    · rw [if_pos h]
    · rw [if_neg h]
      exact (List.Perm.cons x ih).trans (List.Perm.swap m x xs)

/-- The stable sort is a permutation of its input. -/
theorem sortByCreated_perm (l : List Message) : (sortByCreated l).Perm l := by
  induction l with
  | nil => exact List.Perm.refl _
  | cons x xs ih =>
    exact (insertByCreated_perm x (sortByCreated xs)).trans (List.Perm.cons x ih)

/-- Insertion preserves sortedness by `created_at`. -/
theorem insertByCreated_pairwise (m : Message) (l : List Message)
    (h : l.Pairwise (fun a b => a.created_at ≤ b.created_at)) :
    (insertByCreated m l).Pairwise (fun a b => a.created_at ≤ b.created_at) := by
  induction l with
  | nil => simp [insertByCreated]
  | cons x xs ih =>
    rcases List.pairwise_cons.mp h with ⟨hx, hxs⟩
    simp only [insertByCreated]
    by_cases hle : m.created_at ≤ x.created_at
    · rw [if_pos hle]
      refine List.pairwise_cons.mpr ⟨?_, h⟩
      intro z hz
      rcases List.mem_cons.mp hz with rfl | hz2
      · exact hle
      · exact le_trans hle (hx z hz2)
    · rw [if_neg hle]
      refine List.pairwise_cons.mpr ⟨?_, ih hxs⟩
      intro z hz
      have hz2 := (insertByCreated_perm m xs).mem_iff.mp hz
      rcases List.mem_cons.mp hz2 with rfl | hz3
      · exact le_of_not_le hle
      · exact hx z hz3

/-- The stable sort is sorted by `created_at`. -/
theorem sortByCreated_pairwise (l : List Message) :
    (sortByCreated l).Pairwise (fun a b => a.created_at ≤ b.created_at) := by
  induction l with
  | nil => simp [sortByCreated]
  | cons x xs ih => exact insertByCreated_pairwise x (sortByCreated xs) ih

/-- C7: the history assembler returns exactly the `user`/`assistant`
messages — every `human_agent` message is excluded — as (role, content)
pairs in `created_at`-ascending order: the underlying selected list is a
permutation of the input's model-role messages and is pairwise
non-decreasing in `created_at`. -/
theorem C7_history_assembler (msgs : List Message) :
    (get_conversation_history_for_claude msgs =
      ((sortByCreated msgs).filter isModelRole).map (fun m => (m.role, m.content))) ∧
    ((sortByCreated msgs).filter isModelRole).Perm (msgs.filter isModelRole) ∧
    ((sortByCreated msgs).filter isModelRole).Pairwise
      (fun a b => a.created_at ≤ b.created_at) ∧
    (∀ m ∈ (sortByCreated msgs).filter isModelRole,
      m.role = "user" ∨ m.role = "assistant") ∧
    (∀ m ∈ msgs, m.role = "human_agent" →
      m ∉ (sortByCreated msgs).filter isModelRole) := by
  refine ⟨rfl, List.Perm.filter isModelRole (sortByCreated_perm msgs),
    List.Pairwise.filter isModelRole (sortByCreated_pairwise msgs), ?_, ?_⟩
  · intro m hm
    have := (List.mem_filter.mp hm).2
    simp only [isModelRole, Bool.or_eq_true, beq_iff_eq] at this
    exact this
  · intro m _ hrole hmem
    have := (List.mem_filter.mp hmem).2
    simp [isModelRole, hrole] at this

/-- C7 witness: on three interleaved user/assistant/human_agent messages
with distinct timestamps the assembler keeps the two model-role turns in
chronological order. -/
theorem C7_history_assembler_witness :
    ((get_conversation_history_for_claude exHistMsgs =
      ((sortByCreated exHistMsgs).filter isModelRole).map (fun m => (m.role, m.content))) ∧
    ((sortByCreated exHistMsgs).filter isModelRole).Perm (exHistMsgs.filter isModelRole) ∧
    ((sortByCreated exHistMsgs).filter isModelRole).Pairwise
      (fun a b => a.created_at ≤ b.created_at) ∧
    (∀ m ∈ (sortByCreated exHistMsgs).filter isModelRole,
      m.role = "user" ∨ m.role = "assistant") ∧
    (∀ m ∈ exHistMsgs, m.role = "human_agent" →
      m ∉ (sortByCreated exHistMsgs).filter isModelRole)) :=
  C7_history_assembler exHistMsgs

/-- A left fold with `pickLater` lands in the candidate list and dominates
every candidate's creation time. -/
theorem pickLater_foldl_spec (c : Conversation) (cs : List Conversation) :
    cs.foldl pickLater c ∈ (c :: cs) ∧
    ∀ d ∈ (c :: cs), d.created_at ≤ (cs.foldl pickLater c).created_at := by
  induction cs generalizing c with
  | nil =>
    refine ⟨List.mem_singleton.mpr rfl, ?_⟩
    intro d hd
    rw [List.mem_singleton] at hd
    subst hd
    exact le_refl _
  | cons x xs ih =>
    rw [List.foldl_cons]
    obtain ⟨hmem, hmax⟩ := ih (pickLater c x)
    have hp : pickLater c x = x ∨ pickLater c x = c := by
      unfold pickLater
      by_cases h : c.created_at < x.created_at
      · exact Or.inl (if_pos h)
      · exact Or.inr (if_neg h)
    have hcp : c.created_at ≤ (pickLater c x).created_at := by
      unfold pickLater
      by_cases h : c.created_at < x.created_at
      · rw [if_pos h]; exact le_of_lt h
      · rw [if_neg h]
    have hxp : x.created_at ≤ (pickLater c x).created_at := by
      unfold pickLater
      by_cases h : c.created_at < x.created_at
      · rw [if_pos h]
      · rw [if_neg h]; exact le_of_not_lt h
    have hpres : (pickLater c x).created_at ≤
        (xs.foldl pickLater (pickLater c x)).created_at :=
      hmax _ (List.mem_cons_self _ _)
    constructor
    · rcases List.mem_cons.mp hmem with h1 | h2
      · rcases hp with he | he
        · rw [h1, he]; exact List.mem_cons_of_mem _ (List.mem_cons_self _ _)
        · rw [h1, he]; exact List.mem_cons_self _ _
      · exact List.mem_cons_of_mem _ (List.mem_cons_of_mem _ h2)
    · intro d hd
      rcases List.mem_cons.mp hd with rfl | hd2
      · exact le_trans hcp hpres
      · rcases List.mem_cons.mp hd2 with rfl | hd3
        · exact le_trans hxp hpres
        · exact hmax d (List.mem_cons_of_mem _ hd3)

/-- On a non-empty candidate list, `selectMostRecent` returns a member of
maximal creation time. -/
theorem selectMostRecent_spec (l : List Conversation) (h : l ≠ []) :
    ∃ c, selectMostRecent l = some c ∧ c ∈ l ∧
      ∀ d ∈ l, d.created_at ≤ c.created_at := by
  match l with
  | [] => exact absurd rfl h
  | c :: cs =>
    obtain ⟨hmem, hmax⟩ := pickLater_foldl_spec c cs
    exact ⟨cs.foldl pickLater c, rfl, hmem, hmax⟩

/-- C3: when an active (non-resolved) conversation for the (business,
customer) pair exists, `get_or_create_conversation` leaves the store
unchanged and returns an active conversation of the pair of maximal
creation time; when none exists it creates and returns a new conversation
with `status="open"`, `ai_handling=true`, `last_message_at=now`; and after
`resolve_conversation` of the pair's only active conversation, the next
`get_or_create_conversation` for the pair creates a new `open` conversation
rather than returning the resolved one. -/
theorem C3_get_or_create (db : Store) (b : Nat) (cust : String) (now fid : Nat) :
    (activeFor db b cust ≠ [] →
      ((get_or_create_conversation db b cust now fid).2 = db ∧
        (get_or_create_conversation db b cust now fid).1 ∈ activeFor db b cust ∧
        ∀ d ∈ activeFor db b cust,
          d.created_at ≤ (get_or_create_conversation db b cust now fid).1.created_at)) ∧
    (activeFor db b cust = [] →
      ((get_or_create_conversation db b cust now fid).1.status = "open" ∧
        (get_or_create_conversation db b cust now fid).1.ai_handling = true ∧
        (get_or_create_conversation db b cust now fid).1.last_message_at = some now ∧
        (get_or_create_conversation db b cust now fid).1.id = fid ∧
        (get_or_create_conversation db b cust now fid).1.created_at = now ∧
        (get_or_create_conversation db b cust now fid).2.conversations =
          db.conversations ++ [(get_or_create_conversation db b cust now fid).1])) ∧
    (∀ cid db2, resolve_conversation db cid = .ok db2 →
      (∀ c ∈ db.conversations, c.business_id = b → c.customer_number = cust →
        c.status ≠ "resolved" → c.id = cid) →
      (activeFor db2 b cust = [] ∧
        (get_or_create_conversation db2 b cust now fid).1.status = "open" ∧
        (get_or_create_conversation db2 b cust now fid).1.ai_handling = true ∧
        (get_or_create_conversation db2 b cust now fid).1.id = fid ∧
        (get_or_create_conversation db2 b cust now fid).2.conversations =
          db2.conversations ++ [(get_or_create_conversation db2 b cust now fid).1])) := by
  refine ⟨?_, ?_, ?_⟩
  · intro hne
    obtain ⟨c, hc, hmem, hmax⟩ := selectMostRecent_spec _ hne
    unfold get_or_create_conversation
    rw [hc]
    exact ⟨rfl, hmem, hmax⟩
  · intro hemp
    have hsel : selectMostRecent (activeFor db b cust) = none := by
      rw [hemp]; rfl
    unfold get_or_create_conversation
    rw [hsel]
    exact ⟨rfl, rfl, rfl, rfl, rfl, rfl⟩
  · intro cid db2 hres huniq
    have hconv : db2.conversations = db.conversations.map (fun c =>
        if c.id == cid then { c with status := "resolved", ai_handling := false }
        else c) := by
      unfold resolve_conversation at hres
      cases hf : findConv db cid with
      | none => rw [hf] at hres; exact absurd hres (by simp)
      | some d =>
        rw [hf] at hres
        simp only [Except.ok.injEq] at hres
        rw [← hres]
    have hact : activeFor db2 b cust = [] := by
      unfold activeFor
      rw [hconv]
      rw [List.filter_eq_nil_iff]
      intro c2 hc2
      obtain ⟨a, ha, hupd⟩ := List.mem_map.mp hc2
      subst hupd
      by_cases h : a.id = cid
      · simp [h]
      · simp [h]
        intro hb2 hcust2
        by_contra hnr
        exact h (huniq a ha hb2 hcust2 hnr)
    have hsel : selectMostRecent (activeFor db2 b cust) = none := by
      rw [hact]; rfl
    unfold get_or_create_conversation
    rw [hsel]
    exact ⟨hact, rfl, rfl, rfl, rfl⟩

/-- C3 witness: on the open-conversation fixture the directory returns the
existing conversation and leaves the store unchanged; after resolving it,
the directory creates a new `open` conversation with the fresh id. -/
theorem C3_get_or_create_witness :
    (((get_or_create_conversation exStoreOpen 1 "c1" 100 50).2 = exStoreOpen ∧
      (get_or_create_conversation exStoreOpen 1 "c1" 100 50).1 ∈ activeFor exStoreOpen 1 "c1" ∧
      ∀ d ∈ activeFor exStoreOpen 1 "c1",
        d.created_at ≤ (get_or_create_conversation exStoreOpen 1 "c1" 100 50).1.created_at) ∧
    (activeFor exStoreResolved 1 "c1" = [] ∧
      (get_or_create_conversation exStoreResolved 1 "c1" 100 50).1.status = "open" ∧
      (get_or_create_conversation exStoreResolved 1 "c1" 100 50).1.ai_handling = true ∧
      (get_or_create_conversation exStoreResolved 1 "c1" 100 50).1.id = 50 ∧
      (get_or_create_conversation exStoreResolved 1 "c1" 100 50).2.conversations =
        exStoreResolved.conversations ++
          [(get_or_create_conversation exStoreResolved 1 "c1" 100 50).1])) :=
  ⟨(C3_get_or_create exStoreOpen 1 "c1" 100 50).1 (by decide),
   (C3_get_or_create exStoreOpen 1 "c1" 100 50).2.2 10 exStoreResolved rfl
     (by decide)⟩

/-- C4 counterexample: an inbound text message ("hi") for a known business
with AI enabled, landing on a conversation whose `ai_handling` is false
(a prior escalation), is persisted yet no reply of any kind is sent — the
outbound delivery list is empty while the user message was stored. This
refutes the claim that an accepted inbound text message always receives
some textual reply regardless of `ai_handling`/`ai_enabled`. -/
theorem C4_counterexample :
    (receive_webhook exStoreEscalated "pn1" exMsgHi (fun _ => some "welcome!")
      100 101 102 50 60 61).2 = [] ∧
    ∃ m ∈ (receive_webhook exStoreEscalated "pn1" exMsgHi (fun _ => some "welcome!")
      100 101 102 50 60 61).1.messages,
      m.role = "user" ∧ m.content = "hi" := by
  refine ⟨by decide, ?_⟩
  refine ⟨{ id := 60, conversation_id := 10, role := "user", content := "hi"
          , whatsapp_message_id := some "wa1", needs_human := false
          , created_at := 101 }, by decide, rfl, rfl⟩

/-- C4 amended: for every inbound text message accepted by the webhook for
a known business, the user message is persisted; a reply is sent back
exactly when `business.ai_enabled` and the target conversation's
`ai_handling` are both true — when either flag is false the message is
stored without any automated reply. -/
theorem C4_reply_iff_ai_handling (db : Store) (pid : String) (msg : WebhookMsg)
    (api : List (String × String) → Option String)
    (now0 now1 now2 f0 f1 f2 : Nat) (business : Business)
    (hbiz : get_business_by_phone_id db pid = some business)
    (htype : msg.msg_type = "text")
    (hbody : pyStrip msg.text_body ≠ "") :
    (((business.ai_enabled &&
        (get_or_create_conversation db business.id msg.from_number now0 f0).1.ai_handling)
          = true →
      (receive_webhook db pid msg api now0 now1 now2 f0 f1 f2).2.length = 1) ∧
    ((business.ai_enabled &&
        (get_or_create_conversation db business.id msg.from_number now0 f0).1.ai_handling)
          = false →
      (receive_webhook db pid msg api now0 now1 now2 f0 f1 f2).2 = []) ∧
    (∃ m ∈ (receive_webhook db pid msg api now0 now1 now2 f0 f1 f2).1.messages,
      m.role = "user" ∧ m.content = pyStrip msg.text_body ∧
        m.conversation_id =
          (get_or_create_conversation db business.id msg.from_number now0 f0).1.id)) := by
  have hbeq : (msg.msg_type == "text") = true := by simp [htype]
  have hne : (pyStrip msg.text_body == "") = false := by
    simpa using hbody
  unfold receive_webhook
  rw [hbiz]
  simp only [hbeq, if_true, hne, Bool.false_eq_true, if_false]
  cases hflag : (business.ai_enabled &&
      (get_or_create_conversation db business.id msg.from_number now0 f0).1.ai_handling) with
  | false =>
    simp only [hflag, Bool.false_eq_true, if_false]
    refine ⟨by intro h; exact absurd h (by simp), by intro h2; simp, ?_⟩
    refine ⟨(save_message (get_or_create_conversation db business.id msg.from_number now0 f0).2
        (get_or_create_conversation db business.id msg.from_number now0 f0).1.id
        "user" (pyStrip msg.text_body) (some msg.msg_id) false now1 f1).1, ?_, rfl, rfl, rfl⟩
    simp [save_message]
  | true =>
    simp only [hflag, if_true]
    refine ⟨by intro h2; simp, by intro h; exact absurd h (by simp), ?_⟩
    refine ⟨(save_message (get_or_create_conversation db business.id msg.from_number now0 f0).2
        (get_or_create_conversation db business.id msg.from_number now0 f0).1.id
        "user" (pyStrip msg.text_body) (some msg.msg_id) false now1 f1).1, ?_, rfl, rfl, rfl⟩
    by_cases hnh : (generate_reply (pyStrip msg.text_body)
        (get_conversation_history_for_claude
          (messagesOf (get_or_create_conversation db business.id msg.from_number now0 f0).2
            (get_or_create_conversation db business.id msg.from_number now0 f0).1.id))
        api).needs_human
    · simp [hnh, flag_for_human, save_message]
    · simp [hnh, save_message]

/-- C4 amended witness: with AI handling on, the "hi" message gets exactly
one reply and the user message is persisted. -/
theorem C4_reply_iff_ai_handling_witness :
    (((exBusiness.ai_enabled &&
        (get_or_create_conversation exStoreOpen exBusiness.id "c1" 100 50).1.ai_handling)
          = true →
      (receive_webhook exStoreOpen "pn1" exMsgHi (fun _ => some "welcome!")
        100 101 102 50 60 61).2.length = 1) ∧
    ((exBusiness.ai_enabled &&
        (get_or_create_conversation exStoreOpen exBusiness.id "c1" 100 50).1.ai_handling)
          = false →
      (receive_webhook exStoreOpen "pn1" exMsgHi (fun _ => some "welcome!")
        100 101 102 50 60 61).2 = []) ∧
    (∃ m ∈ (receive_webhook exStoreOpen "pn1" exMsgHi (fun _ => some "welcome!")
        100 101 102 50 60 61).1.messages,
      m.role = "user" ∧ m.content = pyStrip exMsgHi.text_body ∧
        m.conversation_id =
          (get_or_create_conversation exStoreOpen exBusiness.id "c1" 100 50).1.id)) :=
  C4_reply_iff_ai_handling exStoreOpen "pn1" exMsgHi (fun _ => some "welcome!")
    100 101 102 50 60 61 exBusiness rfl rfl (by decide)

end Replify
